import Mathlib

/-!
# WeatherAdvisorAgent — verification of the pipeline / validator layer

Shallow embedding of the deterministic parts of the WeatherAdvisorAgent
repository (Python) into Lean 4:

* the Python value model (`Val`) with Python truthiness and `dict.get`
  semantics as used by the validators and callbacks;
* the three validation checkers
  (`weather_advisor_agent/validation_checkers.py` and
  `weather_advisor_agent/utils/validation_checkers.py` — the repository
  contains two diverging copies; both are embedded where they differ);
* the post-pipeline callback and its formatting helpers
  (`weather_advisor_agent/utils/agent_utils.py`);
* the preference store (`weather_advisor_agent/memory/memory_bank.py`);
* the retry-loop wrapper: the `LoopAgent` class itself lives in the external
  `google.adk` library, so its escalate/max_iterations semantics are
  modelled from the specification, while the concrete `max_iterations`
  values are taken from the repository's source.

Machine floats of the Python source are modelled as rationals (`ℚ`);
`round(x, 4)` is modelled as round-half-to-even on `ℚ`.
-/

namespace WeatherAdvisor

/-- A Python value, as far as the validators and callbacks inspect it.
`num` merges Python `int`/`float` into `ℚ`; `dict` is an association list
(first binding wins on lookup, as Python dicts have unique keys). -/
inductive Val : Type where
  | none  : Val
  | bool  : Bool → Val
  | num   : ℚ → Val
  | str   : String → Val
  | list  : List Val → Val
  | dict  : List (String × Val) → Val

namespace Val

/-- Python truthiness: `None`, `False`, `0`, `""`, `[]`, `{}` are falsy. -/
def truthy : Val → Bool
  | .none => false
  | .bool b => b
  | .num q => q ≠ 0
  | .str s => s ≠ ""
  | .list xs => !xs.isEmpty
  | .dict kvs => !kvs.isEmpty

def isDict : Val → Bool
  | .dict _ => true
  | _ => false

def isList : Val → Bool
  | .list _ => true
  | _ => false

def isStr : Val → Bool
  | .str _ => true
  | _ => false

/-- `d.get(k, default)` on a `dict` value (the embedded code only calls
`.get` on values that are dicts at that point). -/
def getD (v : Val) (k : String) (dflt : Val) : Val :=
  match v with
  | .dict kvs => match kvs.lookup k with
    | some w => w
    | Option.none => dflt
  | _ => dflt

/-- `d.get(k)` — Python returns `None` both for an absent key and for a key
bound to `None`. -/
def get (v : Val) (k : String) : Val := v.getD k .none

/-- `k in d` for a dict value (key membership, distinct from `get` being
`None`). -/
def hasKey (v : Val) (k : String) : Bool :=
  match v with
  | .dict kvs => (kvs.lookup k).isSome
  | _ => false

end Val

/-- The session state bag: string keys to Python values.  Stages and
validators read and write it by key. -/
abbrev State := List (String × Val)

/-- `state.get(k)` — `None` when the key is absent. -/
def stateGet (s : State) (k : String) : Val :=
  match s.lookup k with
  | some v => v
  | Option.none => Val.none

/-- `state.get(k, dflt)`. -/
def stateGetD (s : State) (k : String) (dflt : Val) : Val :=
  match s.lookup k with
  | some v => v
  | Option.none => dflt

/-- `state[k] = v`: replace the first binding of `k`, or append one. -/
def stateSet (s : State) (k : String) (v : Val) : State :=
  match s with
  | [] => [(k, v)]
  | (k', v') :: rest =>
    if k' = k then (k, v) :: rest else (k', v') :: stateSet rest k v

@[simp] theorem stateGet_stateSet (s : State) (k : String) (v : Val) :
    stateGet (stateSet s k v) k = v := by
  induction s with
  | nil => simp [stateSet, stateGet, List.lookup]
  | cons hd tl ih =>
    obtain ⟨k', v'⟩ := hd
    simp only [stateSet]
    by_cases h : k' = k
    · simp [h, stateGet, List.lookup]
    · simpa [stateGet, List.lookup, h, beq_iff_eq,
        show (k == k') = false by simp [Ne.symm h]] using ih

/-! ## Retry Loop (C1)

The wrappers `robust_env_data_agent`, `robust_env_location_agent` and
`robust_env_risk_agent` are `LoopAgent` instances from the external
`google.adk` library; only their configuration lives in the repository:

* `robust_env_data_agent`: `max_iterations=config.max_iterations` where
  `EnviroConfiguration.max_iterations = 3`
  (`weather_advisor_agent/config.py`, used by
  `sub_agents/zephyr_env_data_agent.py`);
* `robust_env_location_agent`: `max_iterations=2`
  (`sub_agents/atlas_env_location_agent.py`);
* `robust_env_risk_agent`: `max_iterations=1`
  (`sub_agents/aether_env_risk_agent.py`).
-/

/-- `EnviroConfiguration.max_iterations` from `weather_advisor_agent/config.py`. -/
def config_max_iterations : Nat := 3

/-- `max_iterations` of `robust_env_data_agent` (`LoopAgent` in
`sub_agents/zephyr_env_data_agent.py`). -/
def robust_env_data_agent_max : Nat := config_max_iterations

/-- `max_iterations` of `robust_env_location_agent` (`LoopAgent` in
`sub_agents/atlas_env_location_agent.py`). -/
def robust_env_location_agent_max : Nat := 2

/-- `max_iterations` of `robust_env_risk_agent` (`LoopAgent` in
`sub_agents/aether_env_risk_agent.py`). -/
def robust_env_risk_agent_max : Nat := 1

/-- Modelled from the spec: the `LoopAgent` retry loop of the external
`google.adk` library (not under `src/`).  "Behavior: execute stage; execute
validator; if validator signals escalate (pass), stop; else, if iteration
count < max, repeat from stage execution; else stop regardless of
pass/fail."  `outcomes i` is the validator's escalate signal after the
`i`-th stage execution; the result counts how many times the stage ran. -/
def stageExecs : Nat → (Nat → Bool) → Nat
  | 0, _ => 0
  | maxIter + 1, outcomes =>
    if outcomes 0 then 1
    else 1 + stageExecs maxIter (fun i => outcomes (i + 1))

/-- The loop never runs the stage more than `maxIter` times. -/
theorem stageExecs_le (maxIter : Nat) (outcomes : Nat → Bool) :
    stageExecs maxIter outcomes ≤ maxIter := by
  induction maxIter generalizing outcomes with
  | zero => simp [stageExecs]
  | succ n ih =>
    simp only [stageExecs]
    split
    · omega
    · have := ih (fun i => outcomes (i + 1))
      omega

/-- As soon as the validator escalates, the loop stops: if the `k`-th
outcome is a pass, at most `k + 1` stage executions happen. -/
theorem stageExecs_stops (maxIter k : Nat) (outcomes : Nat → Bool)
    (hk : outcomes k = true) : stageExecs maxIter outcomes ≤ k + 1 := by
  induction maxIter generalizing outcomes k with
  | zero => simp [stageExecs]
  | succ n ih =>
    simp only [stageExecs]
    split
    · omega
    · rename_i h0
      cases k with
      | zero => simp_all
      | succ m =>
        have := ih m (fun i => outcomes (i + 1)) hk
        omega

/-- If the validator fails for the whole run, the stage runs exactly
`maxIter` times (the loop does not give up early, and does not overrun). -/
theorem stageExecs_all_fail (maxIter : Nat) (outcomes : Nat → Bool)
    (hfail : ∀ i, outcomes i = false) : stageExecs maxIter outcomes = maxIter := by
  induction maxIter generalizing outcomes with
  | zero => simp [stageExecs]
  | succ n ih =>
    rw [stageExecs, hfail 0]
    simp only [Bool.false_eq_true, if_false]
    rw [ih (fun i => outcomes (i + 1)) (fun i => hfail (i + 1))]
    omega

/-- C1: a single invocation of any of the three retry-loop wrappers runs its
wrapped stage at most `max_iterations` times (3 for `robust_env_data_agent`,
2 for `robust_env_location_agent`, 1 for `robust_env_risk_agent`) for every
sequence of validator outcomes; the loop stops as soon as the validator
signals escalate (after the `k`-th pass signal at most `k + 1` stage
executions happen); and even an always-failing validator yields exactly
`max_iterations` executions, never more. -/
theorem C1_retry_loop_bounded (outcomes : Nat → Bool) :
    stageExecs robust_env_data_agent_max outcomes ≤ 3 ∧
    stageExecs robust_env_location_agent_max outcomes ≤ 2 ∧
    stageExecs robust_env_risk_agent_max outcomes ≤ 1 ∧
    (∀ maxIter k, outcomes k = true → stageExecs maxIter outcomes ≤ k + 1) ∧
    (∀ maxIter, (∀ i, outcomes i = false) → stageExecs maxIter outcomes = maxIter) :=
  ⟨stageExecs_le _ _, stageExecs_le _ _, stageExecs_le _ _,
   fun maxIter k hk => stageExecs_stops maxIter k outcomes hk,
   fun maxIter hfail => stageExecs_all_fail maxIter outcomes hfail⟩

/-- Witness for C1 at concrete inputs: with an always-failing validator the
data loop runs its stage exactly 3 times, and with a validator that passes
immediately it runs it at most once. -/
theorem C1_retry_loop_bounded_witness :
    stageExecs robust_env_data_agent_max (fun _ => false) = 3 ∧
    stageExecs robust_env_data_agent_max (fun _ => true) ≤ 0 + 1 :=
  ⟨(C1_retry_loop_bounded (fun _ => false)).2.2.2.2 robust_env_data_agent_max
      (fun _ => rfl),
   (C1_retry_loop_bounded (fun _ => true)).2.2.2.1 robust_env_data_agent_max 0 rfl⟩

/-! ## Numeric helpers: `float(str)` and `round(x, 4)`

Machine floats are modelled as rationals.  `round` in Python rounds half to
even; `float("inf")`/`float("nan")` are not representable in `ℚ`, but both
lead to the same "skip this entry" outcome in the location cleaner (an
unparseable string and an out-of-range coordinate are both dropped), so the
model agrees with the source on every entry's fate. -/

/-- Python string whitespace (`str.strip()` and `float()` strip these). -/
def pyWs (c : Char) : Bool :=
  c = ' ' || c = '\t' || c = '\n' || c = '\r' || c = Char.ofNat 11 || c = Char.ofNat 12

/-- Python `s.strip()`. -/
def pyStrip (s : String) : String :=
  String.mk (((s.toList.dropWhile pyWs).reverse.dropWhile pyWs).reverse)

/-- Python `s.startswith(p)`. -/
def pyStartsWith (s p : String) : Bool :=
  p.toList.isPrefixOf s.toList

/-- One fuel-indexed pass of `str.replace` (left to right, non-overlapping). -/
def pyReplaceGo (old new : List Char) : Nat → List Char → List Char
  | 0, cs => cs
  | _ + 1, [] => []
  | fuel + 1, c :: cs =>
    if old.isPrefixOf (c :: cs) then
      new ++ pyReplaceGo old new fuel ((c :: cs).drop old.length)
    else c :: pyReplaceGo old new fuel cs

/-- Python `s.replace(old, new)` for a non-empty `old` (the source only
replaces code-fence markers). -/
def pyReplace (s old new : String) : String :=
  if old.toList.isEmpty then s
  else String.mk (pyReplaceGo old.toList new.toList s.toList.length s.toList)

/-- Python `s.upper()` (ASCII; the embedded strings are ASCII labels). -/
def pyUpperStr (s : String) : String := String.mk (s.toList.map Char.toUpper)

/-- Python `s.lower()` (ASCII). -/
def pyLowerStr (s : String) : String := String.mk (s.toList.map Char.toLower)

/-- Python `round(x)` to an integer: round half to even. -/
def roundHalfEven (q : ℚ) : ℤ :=
  let f := ⌊q⌋
  let r := q - f
  if r < 1 / 2 then f
  else if r > 1 / 2 then f + 1
  else if f % 2 = 0 then f else f + 1

/-- Python `round(x, 4)`. -/
def round4 (q : ℚ) : ℚ := (roundHalfEven (q * 10000) : ℚ) / 10000

/-- Digits to a natural number. -/
def digitsToNat (ds : List Char) : Nat :=
  ds.foldl (fun n c => 10 * n + (c.toNat - 48)) 0

/-- Exponent suffix of a float literal (`e`/`E`, optional sign, digits);
`some 0` on empty input, `none` on trailing junk. -/
def parseExp? : List Char → Option ℤ
  | [] => some 0
  | c :: rest =>
    if c = 'e' ∨ c = 'E' then
      let (sgn, rest') : ℤ × List Char :=
        match rest with
        | '+' :: r => (1, r)
        | '-' :: r => (-1, r)
        | r => (1, r)
      let ds := rest'.takeWhile Char.isDigit
      let tail := rest'.dropWhile Char.isDigit
      if ds.isEmpty || !tail.isEmpty then Option.none
      else some (sgn * digitsToNat ds)
    else Option.none

/-- Python `float(s)` on a string: optional sign, digits with an optional
fractional part (at least one digit overall), optional exponent; surrounding
whitespace stripped.  (`inf`/`nan` literals and `_` digit separators are not
modelled; see the note above.) -/
def parseFloat? (s : String) : Option ℚ :=
  let cs := (pyStrip s).toList
  let (sgn, cs) : ℚ × List Char :=
    match cs with
    | '+' :: rest => (1, rest)
    | '-' :: rest => (-1, rest)
    | rest => (1, rest)
  let intPart := cs.takeWhile Char.isDigit
  let afterInt := cs.dropWhile Char.isDigit
  match afterInt with
  | '.' :: rest =>
    let fracPart := rest.takeWhile Char.isDigit
    let afterFrac := rest.dropWhile Char.isDigit
    if intPart.isEmpty && fracPart.isEmpty then Option.none
    else
      (parseExp? afterFrac).map fun e =>
        sgn * ((digitsToNat intPart : ℚ) +
          (digitsToNat fracPart : ℚ) / 10 ^ fracPart.length) * 10 ^ e
  | rest =>
    if intPart.isEmpty then Option.none
    else (parseExp? rest).map fun e => sgn * (digitsToNat intPart : ℚ) * 10 ^ e

/-- Python `float(v)` on the values the cleaner can meet: numbers pass
through, booleans coerce (`bool` is an `int` subclass), strings are parsed,
everything else raises `TypeError` (modelled as `none`, matching the
source's `except (TypeError, ValueError)` skip). -/
def toFloat? : Val → Option ℚ
  | .num q => some q
  | .bool b => some (if b then 1 else 0)
  | .str s => parseFloat? s
  | _ => Option.none

/-! ## Location Validator/Cleaner (C4, C5, C6)

`EnvLocationGeoValidationChecker._run_async_impl` in
`weather_advisor_agent/utils/validation_checkers.py` (the copy wired into
`robust_env_location_agent`; the copy in
`weather_advisor_agent/validation_checkers.py` is line-for-line the same
cleaning logic). -/

/-- The per-entry admission check of the cleaner's `for` loop: the entry
must be a dict, both `latitude` and `longitude` must be present and not
`None`, `float()` must succeed on both, and the values must lie in
`[-90, 90]` × `[-180, 180]`.  Returns the parsed coordinates. -/
def locCoords? (loc : Val) : Option (ℚ × ℚ) :=
  match loc with
  | .dict _ =>
    match loc.get "latitude", loc.get "longitude" with
    | .none, _ => Option.none
    | _, .none => Option.none
    | lat, lon =>
      match toFloat? lat, toFloat? lon with
      | some latF, some lonF =>
        if -90 ≤ latF ∧ latF ≤ 90 ∧ -180 ≤ lonF ∧ lonF ≤ 180 then
          some (latF, lonF)
        else Option.none
      | _, _ => Option.none
  | _ => Option.none

/-- The normalized candidate the cleaner appends
(`cleaned.append({...})` in the source). -/
def normalizeLoc (loc : Val) (latF lonF : ℚ) : Val :=
  .dict [
    ("name", if (loc.get "name").truthy then loc.get "name" else .str "unknown"),
    ("latitude", .num latF),
    ("longitude", .num lonF),
    ("country", loc.get "country"),
    ("admin1", loc.get "admin1"),
    ("admin2", loc.get "admin2"),
    ("activity", loc.get "activity"),
    ("source", loc.getD "source" (.str "atlas+geocode"))]

/-- The cleaner's `for` loop; `seen` is the `seen_coords` set of coordinate
keys rounded to 4 decimal places. -/
def cleanLocationsGo : List Val → List (ℚ × ℚ) → List Val
  | [], _ => []
  | loc :: rest, seen =>
    match locCoords? loc with
    | Option.none => cleanLocationsGo rest seen
    | some (latF, lonF) =>
      let key := (round4 latF, round4 lonF)
      if key ∈ seen then cleanLocationsGo rest seen
      else normalizeLoc loc latF lonF :: cleanLocationsGo rest (key :: seen)

/-- The full cleaning pass over `env_location_options`. -/
def cleanLocations (locs : List Val) : List Val := cleanLocationsGo locs []

/-- The whole checker, as escalate flag plus post-state: a falsy
`env_location_options` passes immediately without touching the state; a
truthy non-list is coerced to `[]`; otherwise the cleaned list overwrites
the key and the checker passes iff it is non-empty. -/
def envLocationGeoCheck (s : State) : Bool × State :=
  let locations := stateGet s "env_location_options"
  if !locations.truthy then (true, s)
  else
    let locs := match locations with | .list xs => xs | _ => []
    let cleaned := cleanLocations locs
    (!cleaned.isEmpty, stateSet s "env_location_options" (.list cleaned))

/-! ### Claim-side reformulation of the cleaning pass (C4) -/

/-- From the claim's words: an entry survives iff it is a dict whose
`latitude` and `longitude` are parseable as numbers with
`-90 ≤ latitude ≤ 90` and `-180 ≤ longitude ≤ 180`. -/
def claimValidLoc (loc : Val) : Bool :=
  loc.isDict &&
    match toFloat? (loc.get "latitude"), toFloat? (loc.get "longitude") with
    | some la, some lo => decide (-90 ≤ la ∧ la ≤ 90 ∧ -180 ≤ lo ∧ lo ≤ 180)
    | _, _ => false

/-- The parsed latitude of a (valid) entry. -/
def latOf (loc : Val) : ℚ := (toFloat? (loc.get "latitude")).getD 0

/-- The parsed longitude of a (valid) entry. -/
def lonOf (loc : Val) : ℚ := (toFloat? (loc.get "longitude")).getD 0

/-- From the claim's words: the deduplication key, both coordinates rounded
to 4 decimal places. -/
def claimKey (loc : Val) : ℚ × ℚ := (round4 (latOf loc), round4 (lonOf loc))

/-- From the claim's words: keep, in input order, exactly the first
occurrence of every key. -/
def dedupByKey : List Val → List (ℚ × ℚ) → List Val
  | [], _ => []
  | l :: rest, seen =>
    if claimKey l ∈ seen then dedupByKey rest seen
    else l :: dedupByKey rest (claimKey l :: seen)

theorem locCoords?_dict (kvs : List (String × Val)) :
    locCoords? (.dict kvs) =
      match toFloat? ((Val.dict kvs).get "latitude"),
            toFloat? ((Val.dict kvs).get "longitude") with
      | some latF, some lonF =>
        if -90 ≤ latF ∧ latF ≤ 90 ∧ -180 ≤ lonF ∧ lonF ≤ 180 then
          some (latF, lonF)
        else Option.none
      | _, _ => Option.none := by
  unfold locCoords?
  rcases (Val.dict kvs).get "latitude" with _ | b | q | sl | xs | d <;>
    rcases (Val.dict kvs).get "longitude" with _ | b' | q' | sl' | xs' | d' <;>
    first
      | rfl
      | (simp only [toFloat?]; rcases parseFloat? sl with _ | fq <;> rfl)

theorem locCoords?_eq_claim (loc : Val) :
    locCoords? loc =
      if claimValidLoc loc then some (latOf loc, lonOf loc) else Option.none := by
  cases loc with
  | dict kvs =>
    rw [locCoords?_dict]
    unfold claimValidLoc latOf lonOf
    rcases toFloat? ((Val.dict kvs).get "latitude") with _ | la <;>
      rcases toFloat? ((Val.dict kvs).get "longitude") with _ | lo <;>
      simp only [Val.isDict, Bool.true_and, Option.getD]
    · rfl
    · rfl
    · rfl
    · by_cases hr : -90 ≤ la ∧ la ≤ 90 ∧ -180 ≤ lo ∧ lo ≤ 180
      · rw [if_pos hr, if_pos (decide_eq_true hr)]
      · rw [if_neg hr, if_neg (fun hd => hr (of_decide_eq_true hd))]
  | none => rfl
  | bool b => rfl
  | num q => rfl
  | str s => rfl
  | list xs => rfl

theorem claimValidLoc_range (loc : Val) (h : claimValidLoc loc = true) :
    -90 ≤ latOf loc ∧ latOf loc ≤ 90 ∧ -180 ≤ lonOf loc ∧ lonOf loc ≤ 180 := by
  unfold claimValidLoc at h
  rcases hla : toFloat? (loc.get "latitude") with _ | la <;>
    rcases hlo : toFloat? (loc.get "longitude") with _ | lo <;>
    simp_all [latOf, lonOf]

theorem cleanLocationsGo_eq_claim (locs : List Val) (seen : List (ℚ × ℚ)) :
    cleanLocationsGo locs seen =
      (dedupByKey (locs.filter claimValidLoc) seen).map
        (fun l => normalizeLoc l (latOf l) (lonOf l)) := by
  induction locs generalizing seen with
  | nil => rfl
  | cons loc rest ih =>
    have hcl := locCoords?_eq_claim loc
    cases hv : claimValidLoc loc with
    | false =>
      rw [hv, if_neg (by simp)] at hcl
      simp only [cleanLocationsGo, hcl, List.filter_cons, hv,
        Bool.false_eq_true, if_false]
      exact ih seen
    | true =>
      rw [hv, if_pos rfl] at hcl
      simp only [cleanLocationsGo, hcl, List.filter_cons, hv, if_true]
      simp only [dedupByKey]
      by_cases hk : claimKey loc ∈ seen
      · have hk' : (round4 (latOf loc), round4 (lonOf loc)) ∈ seen := hk
        rw [if_pos hk', if_pos hk]
        exact ih seen
      · have hk' : (round4 (latOf loc), round4 (lonOf loc)) ∉ seen := hk
        rw [if_neg hk', if_neg hk]
        simp only [List.map_cons]
        refine congrArg₂ List.cons rfl ?_
        exact ih (claimKey loc :: seen)

/-- Evaluation rule for `round4` when the scaled value is within a half of
the integer below it. -/
theorem round4_eval (q : ℚ) (f : ℤ) (hf : ⌊q * 10000⌋ = f)
    (hlt : q * 10000 - f < 1 / 2) : round4 q = (f : ℚ) / 10000 := by
  simp only [round4, roundHalfEven, hf]
  rw [if_pos hlt]

theorem round4_ex_A : round4 (1000001 / 100000) = 100000 / 10000 := by
  have hf : ⌊(1000001 : ℚ) / 100000 * 10000⌋ = 100000 := by
    rw [Int.floor_eq_iff]
    norm_num
  rw [round4_eval (1000001 / 100000) 100000 hf (by norm_num)]
  norm_num

theorem round4_ex_B : round4 (1000002 / 100000) = 100000 / 10000 := by
  have hf : ⌊(1000002 : ℚ) / 100000 * 10000⌋ = 100000 := by
    rw [Int.floor_eq_iff]
    norm_num
  rw [round4_eval (1000002 / 100000) 100000 hf (by norm_num)]
  norm_num

theorem round4_ex_ten : round4 10 = 100000 / 10000 := by
  have hf : ⌊(10 : ℚ) * 10000⌋ = 100000 := by
    rw [Int.floor_eq_iff]
    norm_num
  rw [round4_eval 10 100000 hf (by norm_num)]
  norm_num

theorem locCoords?_ex_A :
    locCoords? (.dict [("name", .str "A"), ("latitude", .num (1000001 / 100000)),
      ("longitude", .num 10)]) = some (1000001 / 100000, 10) := by
  simp [locCoords?, Val.get, Val.getD, List.lookup, toFloat?]
  norm_num

theorem locCoords?_ex_B :
    locCoords? (.dict [("name", .str "B"), ("latitude", .num (1000002 / 100000)),
      ("longitude", .num 10)]) = some (1000002 / 100000, 10) := by
  simp [locCoords?, Val.get, Val.getD, List.lookup, toFloat?]
  norm_num

theorem cleanLocations_fifth_decimal :
    cleanLocations
      [.dict [("name", .str "A"), ("latitude", .num (1000001 / 100000)),
              ("longitude", .num 10)],
       .dict [("name", .str "B"), ("latitude", .num (1000002 / 100000)),
              ("longitude", .num 10)]]
      = [normalizeLoc
          (.dict [("name", .str "A"), ("latitude", .num (1000001 / 100000)),
                  ("longitude", .num 10)])
          (1000001 / 100000) 10] := by
  simp only [cleanLocations, cleanLocationsGo, locCoords?_ex_A, locCoords?_ex_B]
  rw [round4_ex_A, round4_ex_B, round4_ex_ten]
  simp [cleanLocationsGo]

/-- C4: the Location Validator/Cleaner leaves `env_location_options` holding
exactly the cleaned list (overwriting it whenever the stored list is
truthy; for the empty list the skipped write coincides with cleaning), and
the cleaned list keeps, in input order, exactly the first occurrence — by
latitude and longitude rounded to 4 decimal places — of every entry that is
a dict with parseable in-range coordinates, each rendered in the checker's
normalized form; two entries whose latitude differs only at the 5th decimal
collapse to one output entry. -/
theorem C4_location_cleaning (s : State) (locs : List Val)
    (h : stateGet s "env_location_options" = Val.list locs) :
    stateGet (envLocationGeoCheck s).2 "env_location_options"
      = Val.list (cleanLocations locs) ∧
    cleanLocations locs =
      (dedupByKey (locs.filter claimValidLoc) []).map
        (fun l => normalizeLoc l (latOf l) (lonOf l)) ∧
    cleanLocations
      [.dict [("name", .str "A"), ("latitude", .num (1000001 / 100000)),
              ("longitude", .num 10)],
       .dict [("name", .str "B"), ("latitude", .num (1000002 / 100000)),
              ("longitude", .num 10)]]
      = [normalizeLoc
          (.dict [("name", .str "A"), ("latitude", .num (1000001 / 100000)),
                  ("longitude", .num 10)])
          (1000001 / 100000) 10] := by
  refine ⟨?_, cleanLocationsGo_eq_claim locs [], cleanLocations_fifth_decimal⟩
  unfold envLocationGeoCheck
  rw [h]
  cases locs with
  | nil => simpa [Val.truthy, cleanLocations, cleanLocationsGo] using h
  | cons l ls => simp [Val.truthy]

/-- Witness for C4: a concrete state holding one valid and one coordinate-
duplicate entry; after the checker runs the state holds the one-entry
cleaned list. -/
theorem C4_location_cleaning_witness :
    stateGet (envLocationGeoCheck
        [("env_location_options", Val.list
          [.dict [("name", .str "A"), ("latitude", .num (1000001 / 100000)),
                  ("longitude", .num 10)],
           .dict [("name", .str "B"), ("latitude", .num (1000002 / 100000)),
                  ("longitude", .num 10)]])]).2 "env_location_options"
      = Val.list (cleanLocations
          [.dict [("name", .str "A"), ("latitude", .num (1000001 / 100000)),
                  ("longitude", .num 10)],
           .dict [("name", .str "B"), ("latitude", .num (1000002 / 100000)),
                  ("longitude", .num 10)]]) := by
  have h : stateGet
      [("env_location_options", Val.list
        [.dict [("name", .str "A"), ("latitude", .num (1000001 / 100000)),
                ("longitude", .num 10)],
         .dict [("name", .str "B"), ("latitude", .num (1000002 / 100000)),
                ("longitude", .num 10)]])] "env_location_options"
      = Val.list
        [.dict [("name", .str "A"), ("latitude", .num (1000001 / 100000)),
                ("longitude", .num 10)],
         .dict [("name", .str "B"), ("latitude", .num (1000002 / 100000)),
                ("longitude", .num 10)]] := by
    simp [stateGet, List.lookup]
  exact (C4_location_cleaning _ _ h).1

/-- From the claim's words (C5): the checker passes iff the cleaned list is
non-empty, except that an empty or missing (Python-falsy)
`env_location_options` is a pass; a non-list value is coerced to the empty
list before cleaning. -/
def locPassSpec (v : Val) : Bool :=
  if !v.truthy then true
  else !(cleanLocations (match v with | .list xs => xs | _ => [])).isEmpty

/-- C5: the Location Validator/Cleaner escalates exactly according to
`locPassSpec`; a falsy (empty or missing) `env_location_options` passes
without any cleaning (the state is untouched), and a truthy non-list value
is coerced to the empty list, which fails the check and overwrites the key
with `[]`. -/
theorem C5_location_pass (s : State) :
    (envLocationGeoCheck s).1 = locPassSpec (stateGet s "env_location_options") ∧
    ((stateGet s "env_location_options").truthy = false →
      (envLocationGeoCheck s).2 = s) ∧
    ((stateGet s "env_location_options").truthy = true →
      (stateGet s "env_location_options").isList = false →
      (envLocationGeoCheck s).1 = false ∧
      stateGet (envLocationGeoCheck s).2 "env_location_options" = Val.list []) := by
  simp only [envLocationGeoCheck, locPassSpec]
  generalize stateGet s "env_location_options" = v
  cases htr : v.truthy with
  | false => simp [htr]
  | true =>
    refine ⟨by simp [htr], by simp [htr], fun _ hnl => ?_⟩
    cases v <;> simp_all [Val.isList, cleanLocations, cleanLocationsGo]

/-- Witness for C5: on a state whose `env_location_options` is a truthy
non-list (a string), the checker fails and overwrites the key with the
empty list. -/
theorem C5_location_pass_witness :
    (envLocationGeoCheck [("env_location_options", Val.str "oops")]).1 = false ∧
    stateGet (envLocationGeoCheck [("env_location_options", Val.str "oops")]).2
      "env_location_options" = Val.list [] :=
  (C5_location_pass [("env_location_options", Val.str "oops")]).2.2
    (by simp [stateGet, List.lookup, Val.truthy])
    (by simp [stateGet, List.lookup, Val.isList])

/-! ### Idempotence of the cleaning pass (C6) -/

theorem locCoords?_range (loc : Val) (la lo : ℚ)
    (h : locCoords? loc = some (la, lo)) :
    -90 ≤ la ∧ la ≤ 90 ∧ -180 ≤ lo ∧ lo ≤ 180 := by
  rw [locCoords?_eq_claim] at h
  by_cases hv : claimValidLoc loc = true
  · rw [if_pos hv] at h
    injection h with h'
    obtain ⟨h1, h2⟩ := Prod.ext_iff.mp h'
    subst h1; subst h2
    exact claimValidLoc_range loc hv
  · rw [if_neg hv] at h
    cases h

theorem locCoords?_normalizeLoc (loc : Val) (la lo : ℚ)
    (h : locCoords? loc = some (la, lo)) :
    locCoords? (normalizeLoc loc la lo) = some (la, lo) := by
  have hr := locCoords?_range loc la lo h
  unfold normalizeLoc
  rw [locCoords?_dict]
  simp [Val.get, Val.getD, List.lookup, toFloat?]
  exact hr

theorem normalizeLoc_idem (loc : Val) (la lo : ℚ) :
    normalizeLoc (normalizeLoc loc la lo) la lo = normalizeLoc loc la lo := by
  have hstore : (if (loc.get "name").truthy then loc.get "name"
      else Val.str "unknown").truthy = true := by
    by_cases hn : (loc.get "name").truthy
    · rwa [if_pos hn]
    · rw [if_neg hn]
      decide
  show Val.dict
    [("name",
      if (if (loc.get "name").truthy then loc.get "name"
          else Val.str "unknown").truthy
      then (if (loc.get "name").truthy then loc.get "name"
          else Val.str "unknown")
      else Val.str "unknown"),
     ("latitude", .num la), ("longitude", .num lo),
     ("country", loc.get "country"), ("admin1", loc.get "admin1"),
     ("admin2", loc.get "admin2"), ("activity", loc.get "activity"),
     ("source", loc.getD "source" (.str "atlas+geocode"))]
    = normalizeLoc loc la lo
  rw [if_pos hstore]
  rfl

theorem cleanLocationsGo_idem (locs : List Val) (seen : List (ℚ × ℚ)) :
    cleanLocationsGo (cleanLocationsGo locs seen) seen = cleanLocationsGo locs seen := by
  induction locs generalizing seen with
  | nil => rfl
  | cons loc rest ih =>
    rcases hc : locCoords? loc with _ | ⟨la, lo⟩
    · simp only [cleanLocationsGo, hc]
      exact ih seen
    · simp only [cleanLocationsGo, hc]
      by_cases hk : (round4 la, round4 lo) ∈ seen
      · rw [if_pos hk]
        exact ih seen
      · rw [if_neg hk]
        simp only [cleanLocationsGo, locCoords?_normalizeLoc loc la lo hc]
        rw [if_neg hk, normalizeLoc_idem]
        exact congrArg _ (ih ((round4 la, round4 lo) :: seen))

/-- C6: the cleaning pass is idempotent — running the Location
Validator/Cleaner's cleaning step on its own output returns that output
unchanged, with no further deduplication or removal. -/
theorem C6_cleaning_idempotent (locs : List Val) :
    cleanLocations (cleanLocations locs) = cleanLocations locs :=
  cleanLocationsGo_idem locs []

/-! ## Snapshot Validator (C2)

The repository holds two copies of `EnvSnapshotValidationChecker`; the one
wired into `robust_env_data_agent` (via `from ..validation_checkers import`)
is `weather_advisor_agent/validation_checkers.py`, whose list branch
computes `valid_count` and logs `"{valid_count}/{total_count} snapshots
valid"` but never assigns `is_valid`.  The copy in
`weather_advisor_agent/utils/validation_checkers.py` assigns
`is_valid = valid_count > 0`. -/

/-- `v is not None`. -/
def isNotNone : Val → Bool
  | .none => false
  | _ => true

/-- `is_valid_snapshot` (identical in both copies): must be a dict; under
`current = snap.get("current") or {}` (which must be a dict) at least one of
`temperature_c`, `apparent_temperature_c`, `wind_speed_10m_ms`,
`relative_humidity_percent` is present and not `None`. -/
def is_valid_snapshot (snap : Val) : Bool :=
  if !snap.isDict then false
  else
    let current := if (snap.get "current").truthy then snap.get "current"
      else Val.dict []
    if !current.isDict then false
    else
      isNotNone (current.get "temperature_c") ||
      isNotNone (current.get "apparent_temperature_c") ||
      isNotNone (current.get "wind_speed_10m_ms") ||
      isNotNone (current.get "relative_humidity_percent")

/-- Escalate flag of the snapshot checker wired into the data loop
(`weather_advisor_agent/validation_checkers.py`): a dict is checked with
`is_valid_snapshot`; for a list the source computes the per-entry validity
but never assigns it to `is_valid`, so `is_valid` stays `False`; any other
type also fails.  (This copy does not JSON-parse string snapshots.) -/
def envSnapshotEscalate : Val → Bool
  | .dict kvs => is_valid_snapshot (.dict kvs)
  | .list _ => false
  | _ => false

/-- Escalate flag of the snapshot checker copy in
`weather_advisor_agent/utils/validation_checkers.py`: identical, except its
list branch sets `is_valid = valid_count > 0` over the entries that are
dicts and valid.  (Its JSON pre-parse of string snapshots lies outside C2's
dict-or-list domain.) -/
def envSnapshotEscalateUtils : Val → Bool
  | .dict kvs => is_valid_snapshot (.dict kvs)
  | .list xs =>
    if xs.isEmpty then false
    else !(xs.filter (fun s => s.isDict && is_valid_snapshot s)).isEmpty
  | _ => false

/-- The one-entry list snapshot of the failing input: a valid reading. -/
def exSnapshotEntry : Val :=
  .dict [("current", .dict [("temperature_c", .num 18)])]

/-- C2 (code bug): the claim demands that a list snapshot passes when at
least one entry has a non-null numeric field.  The entry below is valid
(`is_valid_snapshot` holds) and the utils copy passes the one-entry list,
but the checker wired into `robust_env_data_agent` yields
`escalate = false` on it — in fact on every list, because its list branch
never assigns `is_valid`. -/
theorem C2_snapshot_list_bug :
    is_valid_snapshot exSnapshotEntry = true ∧
    envSnapshotEscalateUtils (Val.list [exSnapshotEntry]) = true ∧
    envSnapshotEscalate (Val.list [exSnapshotEntry]) = false ∧
    (∀ xs : List Val, envSnapshotEscalate (Val.list xs) = false) :=
  ⟨by decide, by decide, rfl, fun _ => rfl⟩

/-! ## A JSON parser modelling `json.loads`

Needed by the Risk Validator, which parses a string `env_risk_report`
before checking it.  The model covers the JSON grammar: `null`, `true`,
`false`, numbers, strings with the standard escapes (`\uXXXX` without
surrogate pairing), arrays and objects (later duplicate keys overwrite
earlier ones, as in Python).  Python's non-standard `NaN`/`Infinity`
literals are not modelled.  The parser is shared between the embedded
checker and the claim-side predicate of C3, so the equivalence proved there
does not hinge on these corners. -/

/-- JSON whitespace. -/
def skipWs (cs : List Char) : List Char :=
  cs.dropWhile (fun c => c = ' ' || c = '\t' || c = '\n' || c = '\r')

/-- A hexadecimal digit's value. -/
def hexVal? (c : Char) : Option Nat :=
  if '0' ≤ c ∧ c ≤ '9' then some (c.toNat - 48)
  else if 'a' ≤ c ∧ c ≤ 'f' then some (c.toNat - 87)
  else if 'A' ≤ c ∧ c ≤ 'F' then some (c.toNat - 55)
  else Option.none

/-- The body of a JSON string (after the opening quote), with accumulator. -/
def pString : List Char → List Char → Option (String × List Char)
  | [], _ => Option.none
  | '"' :: rest, acc => some (String.mk acc.reverse, rest)
  | '\\' :: '"' :: rest, acc => pString rest ('"' :: acc)
  | '\\' :: '\\' :: rest, acc => pString rest ('\\' :: acc)
  | '\\' :: '/' :: rest, acc => pString rest ('/' :: acc)
  | '\\' :: 'b' :: rest, acc => pString rest (Char.ofNat 8 :: acc)
  | '\\' :: 'f' :: rest, acc => pString rest (Char.ofNat 12 :: acc)
  | '\\' :: 'n' :: rest, acc => pString rest ('\n' :: acc)
  | '\\' :: 'r' :: rest, acc => pString rest (Char.ofNat 13 :: acc)
  | '\\' :: 't' :: rest, acc => pString rest ('\t' :: acc)
  | '\\' :: 'u' :: h1 :: h2 :: h3 :: h4 :: rest, acc =>
    match hexVal? h1, hexVal? h2, hexVal? h3, hexVal? h4 with
    | some a, some b, some c, some d =>
      pString rest (Char.ofNat (((a * 16 + b) * 16 + c) * 16 + d) :: acc)
    | _, _, _, _ => Option.none
  | '\\' :: _ :: _, _ => Option.none
  | c :: rest, acc => pString rest (c :: acc)

/-- A JSON number (strict grammar: no leading zeros, no bare `.`,
mandatory digits in fraction and exponent). -/
def pNumber (cs : List Char) : Option (ℚ × List Char) :=
  let (neg, cs1) : Bool × List Char :=
    match cs with
    | '-' :: r => (true, r)
    | r => (false, r)
  let intDs := cs1.takeWhile Char.isDigit
  let cs2 := cs1.dropWhile Char.isDigit
  if intDs.isEmpty then Option.none
  else if intDs.length > 1 ∧ intDs.head? = some '0' then Option.none
  else
    let fracStep : Option (List Char × List Char) :=
      match cs2 with
      | '.' :: r =>
        let ds := r.takeWhile Char.isDigit
        if ds.isEmpty then Option.none else some (ds, r.dropWhile Char.isDigit)
      | r => some ([], r)
    match fracStep with
    | Option.none => Option.none
    | some (fracDs, cs3) =>
      let expStep : Option (ℤ × List Char) :=
        match cs3 with
        | 'e' :: r => pExpTail r
        | 'E' :: r => pExpTail r
        | r => some (0, r)
      match expStep with
      | Option.none => Option.none
      | some (e, cs4) =>
        let mant : ℚ := (digitsToNat intDs : ℚ) +
          (digitsToNat fracDs : ℚ) / 10 ^ fracDs.length
        some ((if neg then -mant else mant) * 10 ^ e, cs4)
where
  /-- sign and digits after `e`/`E`. -/
  pExpTail (r : List Char) : Option (ℤ × List Char) :=
    let (sgn, r1) : ℤ × List Char :=
      match r with
      | '+' :: r' => (1, r')
      | '-' :: r' => (-1, r')
      | r' => (1, r')
    let ds := r1.takeWhile Char.isDigit
    if ds.isEmpty then Option.none
    else some (sgn * digitsToNat ds, r1.dropWhile Char.isDigit)

/-- Insert a key into an association list in Python-dict style: a later
duplicate key overwrites the earlier value in place. -/
def kvUpsert {α : Type} (kvs : List (String × α)) (k : String) (v : α) :
    List (String × α) :=
  match kvs with
  | [] => [(k, v)]
  | (k', v') :: rest =>
    if k' = k then (k, v) :: rest else (k', v') :: kvUpsert rest k v

theorem kvUpsert_lookup {α : Type} (kvs : List (String × α)) (k : String) (v : α) :
    (kvUpsert kvs k v).lookup k = some v := by
  induction kvs with
  | nil => simp [kvUpsert, List.lookup]
  | cons hd tl ih =>
    obtain ⟨k', v'⟩ := hd
    simp only [kvUpsert]
    by_cases h : k' = k
    · simp [h, List.lookup]
    · simpa [List.lookup, h, beq_iff_eq,
        show (k == k') = false by simp [Ne.symm h]] using ih

mutual

/-- A JSON value; `fuel` bounds the recursion depth. -/
def pVal : Nat → List Char → Option (Val × List Char)
  | 0, _ => Option.none
  | fuel + 1, cs =>
    match skipWs cs with
    | 'n' :: 'u' :: 'l' :: 'l' :: rest => some (.none, rest)
    | 't' :: 'r' :: 'u' :: 'e' :: rest => some (.bool true, rest)
    | 'f' :: 'a' :: 'l' :: 's' :: 'e' :: rest => some (.bool false, rest)
    | '"' :: rest => (pString rest []).map (fun p => (.str p.1, p.2))
    | '[' :: rest =>
      match skipWs rest with
      | ']' :: r => some (.list [], r)
      | _ => pElems fuel rest []
    | '{' :: rest =>
      match skipWs rest with
      | '}' :: r => some (.dict [], r)
      | _ => pMembers fuel rest []
    | c :: rest =>
      if c = '-' ∨ c.isDigit then
        (pNumber (c :: rest)).map (fun p => (.num p.1, p.2))
      else Option.none
    | [] => Option.none

/-- Array elements after `[`. -/
def pElems : Nat → List Char → List Val → Option (Val × List Char)
  | 0, _, _ => Option.none
  | fuel + 1, cs, acc =>
    match pVal fuel cs with
    | some (v, rest) =>
      match skipWs rest with
      | ',' :: r => pElems fuel r (acc ++ [v])
      | ']' :: r => some (.list (acc ++ [v]), r)
      | _ => Option.none
    | Option.none => Option.none

/-- Object members after `{`. -/
def pMembers : Nat → List Char → List (String × Val) →
    Option (Val × List Char)
  | 0, _, _ => Option.none
  | fuel + 1, cs, acc =>
    match skipWs cs with
    | '"' :: rest =>
      match pString rest [] with
      | some (k, r1) =>
        match skipWs r1 with
        | ':' :: r2 =>
          match pVal fuel r2 with
          | some (v, r3) =>
            match skipWs r3 with
            | ',' :: r4 => pMembers fuel r4 (kvUpsert acc k v)
            | '}' :: r4 => some (.dict (kvUpsert acc k v), r4)
            | _ => Option.none
          | Option.none => Option.none
        | _ => Option.none
      | Option.none => Option.none
    | _ => Option.none

end

/-- `json.loads(s)`, returning `none` on a `JSONDecodeError`. -/
def jsonParse? (s : String) : Option Val :=
  let cs := s.toList
  match pVal (2 * cs.length + 2) cs with
  | some (v, rest) => if (skipWs rest).isEmpty then some v else Option.none
  | Option.none => Option.none

/-! ## Risk Validator (C3)

Both copies of `EnvRiskValidationChecker` compute the same `is_valid`; they
differ in what the yielded event carries.  The copy in
`weather_advisor_agent/validation_checkers.py` yields
`EventActions(escalate=is_valid)`.  The copy in
`weather_advisor_agent/utils/validation_checkers.py` — the one wired into
`robust_env_risk_agent` — ends in `yield Event(..., actions=EventActions())`
with `escalate` unset; only its JSON-parse-failure early return yields an
explicit `escalate=False`. -/

/-- The check on a parsed report: a dict whose `overall_risk` key holds a
value of the closed label set (a non-string value is never in the set). -/
def riskDictOk : Val → Bool
  | .dict kvs =>
    match kvs.lookup "overall_risk" with
    | some (.str l) =>
      (l == "low") || (l == "moderate") || (l == "medium") ||
      (l == "high") || (l == "unknown")
    | _ => false
  | _ => false

/-- The shared `is_valid` computation: a falsy report fails
(`if not risk_report`); a string is JSON-parsed with a parse failure
failing immediately; then the parsed value must satisfy `riskDictOk`. -/
def envRiskIsValid (v : Val) : Bool :=
  if !v.truthy then false
  else
    match v with
    | .str s =>
      match jsonParse? s with
      | Option.none => false
      | some parsed => riskDictOk parsed
    | _ => riskDictOk v

/-- Escalate flag of the `validation_checkers.py` copy:
`EventActions(escalate=is_valid)`. -/
def envRiskEscalate (v : Val) : Bool := envRiskIsValid v

/-- The escalate value of the event yielded by the
`utils/validation_checkers.py` copy (wired into `robust_env_risk_agent`):
`some false` only on the JSON-parse-failure early return; otherwise the
final `EventActions()` leaves `escalate` unset (`none`). -/
def envRiskEscalateUtils (v : Val) : Option Bool :=
  if !v.truthy then Option.none
  else
    match v with
    | .str s =>
      match jsonParse? s with
      | Option.none => some false
      | some _ => Option.none
    | _ => Option.none

/-- From the claim's words (C3): a string report is parsed as JSON first,
a parse failure failing immediately; the validator passes iff the (parsed)
value is a dict whose `overall_risk` is present with a value in
`{low, moderate, medium, high, unknown}`. -/
def riskValidClaim (v : Val) : Bool :=
  match v with
  | .str s =>
    match jsonParse? s with
    | some parsed => riskDictOk parsed
    | Option.none => false
  | _ => riskDictOk v

/-- C3 (amended): the claimed pass condition is exactly the validity
computation both checker copies share, and the `validation_checkers.py`
copy signals escalate precisely per it; but the copy wired into the risk
loop never signals escalate on its final event (it can only carry the
explicit `escalate=False` of the parse-failure path), so "passes (signals
escalate) iff …" fails for the wired checker. -/
theorem C3_risk_amended (v : Val) :
    envRiskEscalate v = riskValidClaim v ∧
    envRiskEscalateUtils v ≠ some true := by
  refine ⟨?_, ?_⟩
  · cases v with
    | none => rfl
    | bool b => cases b <;> rfl
    | num q =>
      simp [envRiskEscalate, envRiskIsValid, riskValidClaim, riskDictOk]
    | str s =>
      by_cases hs : s = ""
      · subst hs; rfl
      · simp only [envRiskEscalate, envRiskIsValid, riskValidClaim, Val.truthy,
          hs, decide_not, Bool.not_not]
        rcases jsonParse? s with _ | p <;> simp [hs]
    | list xs => cases xs <;> rfl
    | dict kvs => cases kvs <;> rfl
  · unfold envRiskEscalateUtils
    cases htr : v.truthy with
    | false => simp [htr]
    | true =>
      cases v with
      | str s =>
        simp only [htr, Bool.not_true, Bool.false_eq_true, if_false]
        rcases jsonParse? s with _ | p <;> simp
      | none => simp [htr]
      | bool b => simp [htr]
      | num q => simp [htr]
      | list xs => simp [htr]
      | dict kvs => simp [htr]

/-- Witness for C3's amended theorem at a concrete unparseable string. -/
theorem C3_risk_amended_witness :
    envRiskEscalate (Val.str "not json") = riskValidClaim (Val.str "not json") ∧
    envRiskEscalateUtils (Val.str "not json") ≠ some true :=
  C3_risk_amended (Val.str "not json")

/-- Counterexample to C3 as stated: on the valid report
`{"overall_risk": "low"}` the claimed pass condition holds and the
`validation_checkers.py` copy escalates, yet the checker wired into
`robust_env_risk_agent` yields its event with no escalate signal. -/
theorem C3_risk_counterexample :
    riskValidClaim (Val.dict [("overall_risk", Val.str "low")]) = true ∧
    envRiskEscalate (Val.dict [("overall_risk", Val.str "low")]) = true ∧
    envRiskEscalateUtils (Val.dict [("overall_risk", Val.str "low")])
      = Option.none :=
  ⟨rfl, rfl, rfl⟩

/-! ## Post-pipeline formatting callbacks (C7, C8, C10)

`format_risk_summary`, `format_weather_summary` and `envi_root_callback`
from `weather_advisor_agent/utils/agent_utils.py`.  An `AttributeError`
(the code calls `.get`, `.upper()` or `.capitalize()` on a value of the
wrong type) is modelled as `Except.error ()`. -/

/-- Python rendering of a number.  Integers render exactly; Python's
shortest-round-trip float repr is approximated by `num/den` — no claim
below inspects the rendering of a non-integer number. -/
def ratRepr (q : ℚ) : String :=
  if q.den = 1 then toString q.num
  else toString q.num ++ "/" ++ toString q.den

/-- A single-quote character (for Python `repr` of strings). -/
def sq : String := String.singleton (Char.ofNat 39)

mutual

/-- Python `repr(v)`. -/
def reprOf : Val → String
  | .none => "None"
  | .bool true => "True"
  | .bool false => "False"
  | .num q => ratRepr q
  | .str s => sq ++ s ++ sq
  | .list xs => "[" ++ String.intercalate ", " (reprList xs) ++ "]"
  | .dict kvs => "\x7b" ++ String.intercalate ", " (reprKVs kvs) ++ "\x7d"

def reprList : List Val → List String
  | [] => []
  | v :: vs => reprOf v :: reprList vs

def reprKVs : List (String × Val) → List String
  | [] => []
  | (k, v) :: kvs => (sq ++ k ++ sq ++ ": " ++ reprOf v) :: reprKVs kvs

end

/-- Python `str(v)`: the string itself for a string, `repr` otherwise. -/
def strOf : Val → String
  | .str s => s
  | v => reprOf v

mutual

/-- Python `==` as the formatters use it (`feels != temp`): `True == 1`
holds (`bool` is an `int` subclass); lists compare elementwise.  Dicts are
compared as ordered pair lists here where Python ignores key order — the
embedded code only ever compares scalar weather readings, where the two
coincide. -/
def pyEq : Val → Val → Bool
  | .none, .none => true
  | .bool a, .bool b => a == b
  | .bool a, .num q => (if a then (1 : ℚ) else 0) == q
  | .num q, .bool b => q == (if b then (1 : ℚ) else 0)
  | .num a, .num b => a == b
  | .str a, .str b => a == b
  | .list as, .list bs => pyEqList as bs
  | .dict as, .dict bs => pyEqKVs as bs
  | _, _ => false

def pyEqList : List Val → List Val → Bool
  | [], [] => true
  | a :: as, b :: bs => pyEq a b && pyEqList as bs
  | _, _ => false

def pyEqKVs : List (String × Val) → List (String × Val) → Bool
  | [], [] => true
  | (k, v) :: as, (k', v') :: bs => k == k' && pyEq v v' && pyEqKVs as bs
  | _, _ => false

end

/-- `v.get(k, dflt)`: `AttributeError` unless `v` is a dict. -/
def pyGetD (v : Val) (k : String) (dflt : Val) : Except Unit Val :=
  match v with
  | .dict kvs => .ok (match kvs.lookup k with
    | some w => w
    | Option.none => dflt)
  | _ => .error ()

/-- `v.get(k)`. -/
def pyGet (v : Val) (k : String) : Except Unit Val := pyGetD v k .none

/-- `v.upper()`: `AttributeError` unless `v` is a string. -/
def pyUpper : Val → Except Unit String
  | .str s => .ok (pyUpperStr s)
  | _ => .error ()

/-- Python `s.capitalize()`: first character upper, the rest lower. -/
def pyCapitalize (s : String) : String :=
  match s.toList with
  | [] => ""
  | c :: rest => String.mk (c.toUpper :: rest.map Char.toLower)

/-- The `risk_labels` table of `format_risk_summary`. -/
def riskFactorLabels : List (String × String) :=
  [("heat_risk", "Heat Risk"), ("cold_risk", "Cold Risk"),
   ("wind_risk", "Wind Risk"), ("air_quality_risk", "Air Quality Risk")]

/-- The weather-data tail of `format_risk_summary` (its
`if snapshot:` block): a dict with `location_name` renders the single
location, a non-empty list renders one block per dict entry. -/
def weatherSection (snapshot : Val) : Except Unit (List String) :=
  if !snapshot.truthy then pure []
  else match snapshot with
  | .dict kvs =>
    if (Val.dict kvs).hasKey "location_name" then do
      let name ← pyGetD (.dict kvs) "location_name" (.str "your location")
      let current ← pyGetD (.dict kvs) "current" (.dict [])
      let temp ← pyGet current "temperature_c"
      let feels ← pyGetD current "feels_like_c" temp
      let wind ← pyGet current "wind_speed_10m_ms"
      let humidity ← pyGet current "humidity_percent"
      let l0 := ["\n**Current Weather:**"]
      let l1 := if name.truthy then l0 ++ ["- **Location:** " ++ strOf name] else l0
      let l2 :=
        if isNotNone temp then
          if isNotNone feels && !pyEq feels temp then
            l1 ++ ["- **Temperature:** " ++ strOf temp ++ "°C (feels like " ++
              strOf feels ++ "°C)"]
          else l1 ++ ["- **Temperature:** " ++ strOf temp ++ "°C"]
        else l1
      let l3 := if isNotNone wind then l2 ++ ["- **Wind:** " ++ strOf wind ++ " m/s"]
        else l2
      let l4 := if isNotNone humidity then
          l3 ++ ["- **Humidity:** " ++ strOf humidity ++ "%"]
        else l3
      pure l4
    else pure []
  | .list xs =>
    if xs.isEmpty then pure []
    else do
      let entryLines ← xs.foldlM (fun acc loc =>
        if !loc.isDict then pure acc
        else do
          let name ← pyGetD loc "location_name" (.str "Unknown")
          let current ← pyGetD loc "current" (.dict [])
          let temp ← pyGetD current "temperature_c" (.str "?")
          let wind ← pyGetD current "wind_speed_10m_ms" (.str "?")
          let humidity ← pyGetD current "humidity_percent" (.str "?")
          pure (acc ++ ["**" ++ strOf name ++ "**",
            "  - Temperature: " ++ strOf temp ++ "°C, Wind: " ++ strOf wind ++
            " m/s, Humidity: " ++ strOf humidity ++ "%"])) []
      pure (["\n**Weather by Location:**\n"] ++ entryLines)
  | _ => pure []

/-- `format_risk_summary(risk, snapshot)`. -/
def format_risk_summary (risk snapshot : Val) : Except Unit String := do
  let overall ← pyGetD risk "overall_risk" (.str "unknown")
  let rationale ← pyGetD risk "rationale" (.str "")
  let overallUp ← pyUpper overall
  let lines0 : List String :=
    ["## Weather & Safety Assessment\n",
     "**Overall Risk Level:** " ++ overallUp ++ "\n"]
  let factorOpts ← riskFactorLabels.mapM (fun p => do
    let level ← pyGetD risk p.1 (.str "unknown")
    if pyEq level (.str "low") || pyEq level (.str "unknown") then
      pure (Option.none (α := String))
    else
      match level with
      | .str ls => pure (some ("- ⚠️ **" ++ p.2 ++ ":** " ++ pyCapitalize ls))
      | _ => Except.error ())
  let riskFactors := factorOpts.filterMap id
  let lines1 := if riskFactors.isEmpty then lines0
    else lines0 ++ ["\n**Risk Factors:**"] ++ riskFactors
  let lines2 := if rationale.truthy then
      lines1 ++ ["\n**Analysis:** " ++ strOf rationale]
    else lines1
  let lines3 ← weatherSection snapshot
  pure (String.intercalate "\n" (lines2 ++ lines3))

/-- `format_weather_summary(snapshot)`: only a list produces per-location
lines; everything else returns the fixed unavailability string. -/
def format_weather_summary (snapshot : Val) : Except Unit String :=
  match snapshot with
  | .list xs => do
    let lines ← xs.foldlM (fun acc loc => do
        let name ← pyGetD loc "location_name" (.str "Unknown")
        let current ← pyGetD loc "current" (.dict [])
        let temp ← pyGetD current "temperature_c" (.str "?")
        let wind ← pyGetD current "wind_speed_10m_ms" (.str "?")
        let humidity ← pyGetD current "humidity_percent" (.str "?")
        pure (acc ++ ["**" ++ strOf name ++ "**",
          "- Temperature: " ++ strOf temp ++ "°C, Wind: " ++ strOf wind ++
          " m/s, Humidity: " ++ strOf humidity ++ "%\n"]))
      ["Current weather across your locations:\n"]
    pure (String.intercalate "\n" lines)
  | _ => pure "Weather data not available."

/-- The substantiality threshold of the callback's priority 1
(`len(str(advice)) > 50`). -/
def substantialityThreshold : Nat := 50

/-- The code-fence strip of priority 1. -/
def stripCodeFence (a0 : String) : String :=
  let a := pyStrip a0
  if pyStartsWith a "```markdown" then
    pyStrip (pyReplace (pyReplace a "```markdown" "") "```" "")
  else if pyStartsWith a "```" then pyStrip (pyReplace a "```" "")
  else a

/-- Priority 4's bulleted candidate list. -/
def renderLocationBullets (xs : List Val) : Except Unit String := do
  let lines ← xs.mapM (fun loc => do
    let nm ← pyGetD loc "name" (.str "Unknown")
    let ad ← pyGetD loc "admin1" (.str "")
    let co ← pyGetD loc "country" (.str "")
    pure ("- " ++ strOf nm ++ " — " ++ strOf ad ++ ", " ++ strOf co))
  pure ("Here are some options you might consider:\n" ++
    String.intercalate "\n" lines)

/-- `envi_root_callback`: the response-selection ladder run after the
pipeline, as the source orders it — the forced-aurora recovery branch
first, then substantial advice, then the risk summary, then the weather
summary, then the candidate list, else nothing. -/
def envi_root_callback (s : State) : Except Unit (Option String) :=
  let auroraRequired := stateGetD s "_aurora_required" (.bool false)
  let forced : Except Unit (Option String) :=
    if auroraRequired.truthy then
      let risk := stateGet s "env_risk_report"
      let snapshot := stateGet s "env_snapshot"
      if risk.truthy && snapshot.truthy then
        (format_risk_summary risk snapshot).map some
      else Except.ok Option.none
    else Except.ok Option.none
  match forced with
  | .error e => .error e
  | .ok (some t) => .ok (some t)
  | .ok Option.none =>
    let advice := stateGet s "env_advice_markdown"
    if advice.truthy && (strOf advice).length > substantialityThreshold then
      .ok (some (stripCodeFence (strOf advice)))
    else
      let risk := stateGet s "env_risk_report"
      let snapshot := stateGet s "env_snapshot"
      if risk.truthy && risk.isDict then
        (format_risk_summary risk snapshot).map some
      else if snapshot.truthy then
        (format_weather_summary snapshot).map some
      else
        match stateGet s "env_location_options" with
        | .list xs =>
          if !xs.isEmpty && (match xs with
              | l0 :: _ => l0.isDict
              | [] => false) then
            (renderLocationBullets xs).map some
          else .ok Option.none
        | _ => .ok Option.none

/-- From the claim's words (C7), with the two amendments the source forces:
the `_aurora_required` recovery branch precedes priority 1, and priority 4
checks that the first candidate is a dict (not every candidate).  Otherwise
the ladder is as claimed: (1) substantial advice verbatim after fence
stripping, (2) risk summary for a truthy dict report, (3) weather summary
for a truthy snapshot, (4) bulleted candidates, (5) nothing. -/
def enviRootCallbackSpec (s : State) : Except Unit (Option String) :=
  let advice := stateGet s "env_advice_markdown"
  let risk := stateGet s "env_risk_report"
  let snapshot := stateGet s "env_snapshot"
  if (stateGetD s "_aurora_required" (.bool false)).truthy
      && risk.truthy && snapshot.truthy then
    (format_risk_summary risk snapshot).map some
  else if advice.truthy && (strOf advice).length > substantialityThreshold then
    .ok (some (stripCodeFence (strOf advice)))
  else if risk.truthy && risk.isDict then
    (format_risk_summary risk snapshot).map some
  else if snapshot.truthy then
    (format_weather_summary snapshot).map some
  else
    match stateGet s "env_location_options" with
    | .list (l0 :: rest) =>
      if l0.isDict then (renderLocationBullets (l0 :: rest)).map some
      else .ok Option.none
    | _ => .ok Option.none

theorem callbackTail_eq (s : State) :
    (match stateGet s "env_location_options" with
     | .list xs =>
       if !xs.isEmpty && (match xs with
           | l0 :: _ => l0.isDict
           | [] => false) then
         (renderLocationBullets xs).map some
       else Except.ok Option.none
     | _ => Except.ok Option.none)
    = (match stateGet s "env_location_options" with
       | .list (l0 :: rest) =>
         if l0.isDict then (renderLocationBullets (l0 :: rest)).map some
         else Except.ok Option.none
       | _ => Except.ok (Option.none (α := String))) := by
  rcases stateGet s "env_location_options" with _ | b | q | st | xs | kvs
  case list =>
    cases xs with
    | nil => rfl
    | cons l0 rest => cases hl : l0.isDict <;> simp [hl]
  all_goals rfl

/-- C7 (amended): the callback follows the claimed first-match-wins ladder,
amended by the forced-aurora pre-branch and by priority 4 testing only the
first candidate for dict-ness. -/
theorem C7_callback_priority (s : State) :
    envi_root_callback s = enviRootCallbackSpec s := by
  simp only [envi_root_callback, enviRootCallbackSpec]
  cases ha : (stateGetD s "_aurora_required" (Val.bool false)).truthy with
  | false =>
    rw [if_neg (by simp [ha])]
    simp only [ha, Bool.false_and, Bool.false_eq_true, if_false]
    rw [callbackTail_eq s]
  | true =>
    rw [if_pos rfl]
    simp only [Bool.true_and]
    cases hrs : ((stateGet s "env_risk_report").truthy &&
        (stateGet s "env_snapshot").truthy) with
    | false =>
      simp only [Bool.false_eq_true, ite_false]
      rw [callbackTail_eq s]
    | true =>
      simp only [eq_self_iff_true, ite_true]
      rcases format_risk_summary (stateGet s "env_risk_report")
        (stateGet s "env_snapshot") with e | r <;> rfl

/-- The concrete advice text of the C7 counterexample (longer than the
substantiality threshold, no code fences). -/
def exAdvice : String :=
  "# Outdoor Advice\nStay hydrated and avoid the midday sun today."

/-- A session state where advice is substantial yet the forced-aurora
branch fires first. -/
def exC7State : State :=
  [("_aurora_required", .bool true),
   ("env_risk_report", .dict [("overall_risk", .str "low")]),
   ("env_snapshot", .dict [("location_name", .str "X")]),
   ("env_advice_markdown", .str exAdvice)]

/-- Counterexample to C7 as stated: in `exC7State` the priority-1 condition
holds (`env_advice_markdown` present and substantial), yet the callback
returns the synthesized risk summary, not the advice. -/
theorem C7_counterexample :
    ((stateGet exC7State "env_advice_markdown").truthy &&
      (strOf (stateGet exC7State "env_advice_markdown")).length >
        substantialityThreshold) = true ∧
    envi_root_callback exC7State = Except.ok (some
      ("## Weather & Safety Assessment\n\n**Overall Risk Level:** LOW\n\n" ++
       "\n**Current Weather:**\n- **Location:** X")) ∧
    ("## Weather & Safety Assessment\n\n**Overall Risk Level:** LOW\n\n" ++
       "\n**Current Weather:**\n- **Location:** X")
      ≠ stripCodeFence (strOf (stateGet exC7State "env_advice_markdown")) :=
  ⟨by decide, rfl, by decide⟩

/-- The JSON text that slips through priority 1 verbatim. -/
def exJsonAdvice : String :=
  "\x7b\"overall_risk\": \"low\", \"rationale\": \"sunny and calm today\"\x7d"

/-- C8 (code bug): with `env_advice_markdown` holding a JSON object text of
more than 50 characters, the callback returns it verbatim — text that
begins with a brace after trimming and parses successfully as JSON —
contradicting the claim and the function's own docstring ("NEVER allows
JSON through"). -/
theorem C8_json_passthrough :
    envi_root_callback [("env_advice_markdown", .str exJsonAdvice)]
      = Except.ok (some exJsonAdvice) ∧
    pyStartsWith (pyStrip exJsonAdvice) "\x7b" = true ∧
    (jsonParse? exJsonAdvice).isSome = true :=
  ⟨rfl, by decide, by decide⟩

/-- C10: `format_weather_summary` returns exactly the fixed string
`"Weather data not available."` on every non-list snapshot (a dict
included), so the callback's priority 3 never emits weather figures for a
dict snapshot; a concrete state with a single-location dict snapshot and
nothing else indeed yields exactly that fixed string. -/
theorem C10_weather_summary_not_list :
    (∀ v : Val, v.isList = false →
      format_weather_summary v = Except.ok "Weather data not available.") ∧
    envi_root_callback
      [("env_snapshot", Val.dict [("current", Val.dict [("temperature_c", Val.num 18)])])]
      = Except.ok (some "Weather data not available.") := by
  refine ⟨fun v h => ?_, rfl⟩
  cases v with
  | list xs => exact absurd h (by simp [Val.isList])
  | none => rfl
  | bool b => rfl
  | num q => rfl
  | str s => rfl
  | dict kvs => rfl

/-- Witness for C10 at a concrete dict snapshot. -/
theorem C10_weather_summary_not_list_witness :
    format_weather_summary (Val.dict [("current", Val.dict [])])
      = Except.ok "Weather data not available." :=
  C10_weather_summary_not_list.1 (Val.dict [("current", Val.dict [])]) rfl

/-! ## Preference store (C9)

`TheophrastusMemoryBank.store_user_preference` and
`get_user_preference` from `weather_advisor_agent/memory/memory_bank.py`.
Only `user_preferences` is touched by the embedded operation; the
disk persistence (`_save_to_disk`) is file I/O outside the model, and
`datetime.now()` is passed in as `now`.  The four `if` blocks of the
source are the four `apply…` steps.  Python's `set` iteration order is
unspecified, so the merged activity list is modelled as
`(existing ++ new).dedup`, which has the same membership — the claim
speaks of the result as a set. -/

/-- The `UserPreference` dataclass (`favorite_locations` entries and
`preferred_weather` are dicts). -/
structure UserPreference where
  user_id : String
  preferred_activities : List String
  risk_tolerance : String
  favorite_locations : List (List (String × Val))
  preferred_weather : List (String × Val)
  last_updated : String

/-- A fresh `UserPreference(user_id=user_id)` with `__post_init__`
stamping `now`. -/
def freshPreference (user_id now : String) : UserPreference :=
  { user_id := user_id, preferred_activities := [], risk_tolerance := "medium",
    favorite_locations := [], preferred_weather := [], last_updated := now }

/-- The in-memory bank: `user_preferences` keyed by user id (query history
and location memories are untouched by the claim's operation). -/
structure TheophrastusMemoryBank where
  user_preferences : List (String × UserPreference)

/-- `if activities: existing = set(...); existing.update(activities);
pref.preferred_activities = list(existing)`. -/
def applyActivities (pref : UserPreference) (activities : Option (List String)) :
    UserPreference :=
  match activities with
  | some acts =>
    if acts.isEmpty then pref
    else { pref with preferred_activities := (pref.preferred_activities ++ acts).dedup }
  | Option.none => pref

/-- `if risk_tolerance: pref.risk_tolerance = risk_tolerance`. -/
def applyRisk (pref : UserPreference) (rt : Option String) : UserPreference :=
  match rt with
  | some r => if r = "" then pref else { pref with risk_tolerance := r }
  | Option.none => pref

/-- `if favorite_location:` — append unless a stored favorite already
carries the same `name` (Python compares the `.get("name")` values). -/
def applyFavorite (pref : UserPreference)
    (fav : Option (List (String × Val))) : UserPreference :=
  match fav with
  | some f =>
    if f.isEmpty then pref
    else if pref.favorite_locations.any
        (fun loc => pyEq ((loc.lookup "name").getD Val.none)
          ((f.lookup "name").getD Val.none)) then pref
    else { pref with favorite_locations := pref.favorite_locations ++ [f] }
  | Option.none => pref

/-- `if preferred_weather: pref.preferred_weather.update(...)`. -/
def applyWeather (pref : UserPreference)
    (pw : Option (List (String × Val))) : UserPreference :=
  match pw with
  | some w =>
    if w.isEmpty then pref
    else { pref with preferred_weather :=
      (w.foldl (fun acc kv => kvUpsert acc kv.1 kv.2) pref.preferred_weather) }
  | Option.none => pref

/-- `store_user_preference`: fetch or create the user's record, run the
four update blocks, stamp `last_updated`, store the record back. -/
def store_user_preference (bank : TheophrastusMemoryBank) (user_id : String)
    (activities : Option (List String)) (risk_tolerance : Option String)
    (favorite_location : Option (List (String × Val)))
    (preferred_weather : Option (List (String × Val)))
    (now : String) : TheophrastusMemoryBank :=
  let pref0 := match bank.user_preferences.lookup user_id with
    | some p => p
    | Option.none => freshPreference user_id now
  let pref := applyWeather (applyFavorite (applyRisk
    (applyActivities pref0 activities) risk_tolerance) favorite_location)
    preferred_weather
  { user_preferences :=
      kvUpsert bank.user_preferences user_id { pref with last_updated := now } }

/-- `get_user_preference`. -/
def get_user_preference (bank : TheophrastusMemoryBank) (user_id : String) :
    Option UserPreference :=
  bank.user_preferences.lookup user_id

/-- The stored activity set of a user (empty for an unknown user). -/
def prefActs (bank : TheophrastusMemoryBank) (user_id : String) : List String :=
  ((get_user_preference bank user_id).map UserPreference.preferred_activities).getD []

theorem applyRisk_acts (pref : UserPreference) (rt : Option String) :
    (applyRisk pref rt).preferred_activities = pref.preferred_activities := by
  rcases rt with _ | r
  · simp only [applyRisk]
  · simp only [applyRisk]
    split_ifs <;> rfl

theorem applyFavorite_acts (pref : UserPreference)
    (fav : Option (List (String × Val))) :
    (applyFavorite pref fav).preferred_activities = pref.preferred_activities := by
  rcases fav with _ | f
  · simp only [applyFavorite]
  · simp only [applyFavorite]
    split_ifs <;> rfl

theorem applyWeather_acts (pref : UserPreference)
    (pw : Option (List (String × Val))) :
    (applyWeather pref pw).preferred_activities = pref.preferred_activities := by
  rcases pw with _ | w
  · simp only [applyWeather]
  · simp only [applyWeather]
    split_ifs <;> rfl

/-- The activity set after a store: the old set, united with the given
activities when a non-empty list is given. -/
theorem store_prefActs (bank : TheophrastusMemoryBank) (u : String)
    (acts? : Option (List String)) (rt : Option String)
    (fav pw : Option (List (String × Val))) (now : String) :
    prefActs (store_user_preference bank u acts? rt fav pw now) u =
      match acts? with
      | some acts => if acts.isEmpty then prefActs bank u
          else (prefActs bank u ++ acts).dedup
      | Option.none => prefActs bank u := by
  have hacts : ∀ p0 : UserPreference,
      (applyActivities p0 acts?).preferred_activities =
        (match acts? with
        | some acts => if acts.isEmpty then p0.preferred_activities
            else (p0.preferred_activities ++ acts).dedup
        | Option.none => p0.preferred_activities) := by
    intro p0
    rcases acts? with _ | acts
    · simp only [applyActivities]
    · simp only [applyActivities]
      split_ifs <;> simp
  unfold prefActs get_user_preference store_user_preference
  simp only [kvUpsert_lookup, Option.map_some, Option.getD_some]
  show (applyWeather (applyFavorite (applyRisk (applyActivities _ _) _) _)
      _).preferred_activities = _
  rw [applyWeather_acts, applyFavorite_acts, applyRisk_acts, hacts]
  rcases hl : bank.user_preferences.lookup u with _ | p <;>
    rcases acts? with _ | acts <;>
    simp [freshPreference]

/-- C9: storing `["hiking"]` and then `["swimming"]` for the same user
leaves `preferred_activities` with membership exactly
`{"hiking", "swimming"}` — a union, not a replacement; in general a store
keeps every previously stored activity and adds every given one. -/
theorem C9_preferences_union :
    (∀ a : String,
      a ∈ prefActs
        (store_user_preference
          (store_user_preference { user_preferences := [] } "u"
            (some ["hiking"]) Option.none Option.none Option.none "t1")
          "u" (some ["swimming"]) Option.none Option.none Option.none "t2") "u"
      ↔ (a = "hiking" ∨ a = "swimming")) ∧
    (∀ (bank : TheophrastusMemoryBank) (u : String) (acts? : Option (List String))
      (rt : Option String) (fav pw : Option (List (String × Val))) (now a : String),
      a ∈ prefActs bank u →
      a ∈ prefActs (store_user_preference bank u acts? rt fav pw now) u) ∧
    (∀ (bank : TheophrastusMemoryBank) (u : String) (acts : List String)
      (rt : Option String) (fav pw : Option (List (String × Val))) (now a : String),
      a ∈ acts →
      a ∈ prefActs (store_user_preference bank u (some acts) rt fav pw now) u) := by
  refine ⟨?_, ?_, ?_⟩
  · intro a
    rw [store_prefActs, store_prefActs]
    simp [prefActs, get_user_preference, List.lookup, List.mem_dedup]
  · intro bank u acts? rt fav pw now a ha
    rw [store_prefActs]
    rcases acts? with _ | acts
    · exact ha
    · by_cases he : acts.isEmpty <;> simp [he, List.mem_dedup, ha]
  · intro bank u acts rt fav pw now a ha
    rw [store_prefActs]
    have : ¬acts.isEmpty := by
      cases acts with
      | nil => cases ha
      | cons x xs => simp
    simp [this, List.mem_dedup, ha]

/-- Witness for C9 at the concrete two-store scenario and a concrete
monotonicity instance. -/
theorem C9_preferences_union_witness :
    ("hiking" ∈ prefActs
      (store_user_preference
        (store_user_preference { user_preferences := [] } "u"
          (some ["hiking"]) Option.none Option.none Option.none "t1")
        "u" (some ["swimming"]) Option.none Option.none Option.none "t2") "u"
    ↔ ("hiking" = "hiking" ∨ "hiking" = "swimming")) ∧
    "swimming" ∈ prefActs
      (store_user_preference
        (store_user_preference { user_preferences := [] } "u"
          (some ["hiking"]) Option.none Option.none Option.none "t1")
        "u" (some ["swimming"]) Option.none Option.none Option.none "t2") "u" :=
  ⟨C9_preferences_union.1 "hiking",
   C9_preferences_union.2.2
    (store_user_preference { user_preferences := [] } "u"
      (some ["hiking"]) Option.none Option.none Option.none "t1")
    "u" ["swimming"] Option.none Option.none Option.none "t2" "swimming"
    (by simp)⟩

end WeatherAdvisor
